import Mathlib

set_option maxRecDepth 8000

/-!
Verification development for the browser camera-capture / image-analysis
demo application.

The development shallowly embeds the two cooperating components:

* the camera session manager (`useCamera` composable): stream acquisition,
  stop, restart, facing-mode switch, pause/resume and frame capture, with
  the externally supplied outcomes (getUserMedia, video playback, device
  enumeration, canvas rendering) modelled as explicit environment records;
* the analysis dispatcher (`CameraPreview.handleAnalyzeImage` together with
  the `useGemini` composable): prompt derivation, per-category fan-out and
  settlement of the external analysis service, modelled with an explicit
  settlement order to capture that requests settle independently;
* the page-level result aggregation (`index.vue handleAnalysisResult`) and
  the selection grid (`AnalysisGrid.handleSelectionChange`).

Media streams are identified by natural numbers.  The set of acquired but
not-yet-stopped streams is carried in the state (`openStreams`) so that the
"at most one stream handle open" invariant is a statement about the model
rather than an assumption.  Asynchronous suspension points of an operation
are recorded as a trace of observed intermediate states.
-/

namespace CameraApp

/-- Facing mode of the camera: `'user' | 'environment'`. -/
inductive FacingMode where
  | user
  | environment
deriving DecidableEq, Repr

/-- Toggle between front and rear camera, as in `switchCamera`:
`currentFacingMode.value === 'user' ? 'environment' : 'user'`. -/
def FacingMode.toggle : FacingMode → FacingMode
  | .user => .environment
  | .environment => .user

/-- State of one `useCamera` session.  Reactive refs and the closure
variable `mediaStream` of the source become plain fields.  `openStreams`
records every acquired stream id whose tracks have not been stopped
(instrumentation for the resource invariant), `nextStreamId` generates
fresh stream ids, and `gumCalls` counts `getUserMedia` requests. -/
structure CameraState where
  videoRef : Bool
  srcObject : Option Nat
  cameraError : Option String
  isStreamReady : Bool
  isInitializing : Bool
  isPaused : Bool
  videoPlaying : Bool
  currentFacingMode : FacingMode
  availableDevices : List Nat
  mediaStream : Option Nat
  openStreams : List Nat
  nextStreamId : Nat
  gumCalls : Nat
deriving DecidableEq, Repr

/-- Environment outcomes an `initCamera` run can observe: browser support,
the `getUserMedia` settlement, whether `onloadedmetadata` ever fires, the
`video.play()` settlement inside that callback, and device enumeration. -/
structure InitEnv where
  cameraSupported : Bool
  gum : Except String Unit
  metadataFires : Bool
  play : Except String Unit
  enumOk : Bool
  devices : List Nat
deriving Repr

/-- `cleanupStream`: stops (and unregisters) the tracks of the current
`mediaStream`, nulls it, and clears `video.srcObject` when the video
element is mounted. -/
def cleanupStream (s : CameraState) : CameraState :=
  let s1 := match s.mediaStream with
    | some id => { s with openStreams := s.openStreams.filter (· ≠ id), mediaStream := none }
    | none => s
  if s1.videoRef then { s1 with srcObject := none } else s1

/-- `getAvailableDevices`: on success replaces `availableDevices` with the
enumerated video-input devices, on failure (or missing API) changes
nothing. -/
def getAvailableDevices (s : CameraState) (e : InitEnv) : CameraState :=
  if e.enumOk then { s with availableDevices := e.devices } else s

/-- The `catch` block of `initCamera`: record the error message, clear the
initializing flag, then `cleanupStream`. -/
def initFail (msg : String) (s : CameraState) : CameraState :=
  cleanupStream { s with cameraError := some msg, isInitializing := false }

/-- `initCamera`, returning the final state together with the trace of
states observed at each suspension/assignment point.  Guards: no-op while
already initializing or holding a stream, and while the video element is
absent.  The success path acquires a fresh stream, binds it to the video
element, refreshes the device list and resolves the
`onloadedmetadata`/`play` callback per the environment. -/
def initCamera (s : CameraState) (e : InitEnv) : CameraState × List CameraState :=
  if s.isInitializing ∨ s.mediaStream.isSome then (s, [s])
  else if ¬ s.videoRef then (s, [s])
  else
    let s1 := { s with isInitializing := true, cameraError := none,
                       isStreamReady := false, isPaused := false }
    if ¬ e.cameraSupported then
      let sf := initFail "Perangkat tidak mendukung akses kamera." s1
      (sf, [s1, sf])
    else
      match e.gum with
      | .error msg =>
        let sf := initFail msg s1
        (sf, [s1, sf])
      | .ok _ =>
        let sid := s1.nextStreamId
        let s2 := { s1 with mediaStream := some sid,
                            openStreams := s1.openStreams ++ [sid],
                            nextStreamId := sid + 1,
                            gumCalls := s1.gumCalls + 1 }
        -- setupTrackListeners: registers the ended-listener, no modelled field
        if ¬ s2.videoRef then
          let sf := initFail "Video element tidak ditemukan." s2
          (sf, [s1, s2, sf])
        else
          let s3 := { s2 with srcObject := s2.mediaStream }
          let s4 := getAvailableDevices s3 e
          if ¬ e.metadataFires then (s4, [s1, s2, s3, s4])
          else
            match e.play with
            | .ok _ =>
              let s5 := { s4 with isStreamReady := true, isInitializing := false,
                                  videoPlaying := true }
              (s5, [s1, s2, s3, s4, s5])
            | .error msg =>
              let s5 := { s4 with cameraError := some ("Gagal memutar video: " ++ msg),
                                  isInitializing := false }
              (s5, [s1, s2, s3, s4, s5])

/-- `stopCamera`: clears the initializing/ready/paused flags and releases
the stream.  It does not touch `cameraError`. -/
def stopCamera (s : CameraState) : CameraState :=
  cleanupStream { s with isInitializing := false, isStreamReady := false, isPaused := false }

/-- `restartCamera`: `stopCamera`, a fixed delay, then `initCamera`.  The
state after the stop is an observed instant of the trace. -/
def restartCamera (s : CameraState) (e : InitEnv) : CameraState × List CameraState :=
  let s1 := stopCamera s
  let r := initCamera s1 e
  (r.1, s1 :: r.2)

/-- `switchCamera`: refresh the device list when empty, toggle the facing
mode, then restart. -/
def switchCamera (s : CameraState) (e : InitEnv) : CameraState × List CameraState :=
  let s1 := if s.availableDevices.isEmpty then getAvailableDevices s e else s
  let s2 := { s1 with currentFacingMode := s1.currentFacingMode.toggle }
  restartCamera s2 e

/-- `pauseCamera`: only when the video element is mounted and the stream is
ready, pause playback and set the paused flag. -/
def pauseCamera (s : CameraState) : CameraState :=
  if s.videoRef ∧ s.isStreamReady then { s with videoPlaying := false, isPaused := true }
  else s

/-- Outcome of the `video.play()` call attempted by `resumeCamera`. -/
structure ResumeEnv where
  play : Except String Unit
deriving Repr

/-- `resumeCamera`: only when the video element is mounted and the session
is paused, try to play; on success clear the paused flag, on failure record
the resume error without tearing anything down. -/
def resumeCamera (s : CameraState) (e : ResumeEnv) : CameraState :=
  if s.videoRef ∧ s.isPaused then
    match e.play with
    | .ok _ => { s with videoPlaying := true, isPaused := false }
    | .error _ => { s with cameraError := some "Gagal melanjutkan video" }
  else s

/-- Environment of one `captureScreenshot` call: whether
`canvas.getContext` returns a context, whether the draw step succeeds, and
the data URL `toDataURL` would produce. -/
structure CaptureEnv where
  ctxOk : Bool
  drawOk : Bool
  png : String
deriving Repr

/-- `captureScreenshot`: `null` unless the video element is mounted and the
stream is ready; otherwise render the current frame and return the encoded
data URL (or `null` when the context is missing or rendering throws).  The
source mutates no ref, so the state is returned unchanged. -/
def captureScreenshot (s : CameraState) (e : CaptureEnv) : Option String × CameraState :=
  if ¬ s.videoRef ∨ ¬ s.isStreamReady then (none, s)
  else if ¬ e.ctxOk then (none, s)
  else if ¬ e.drawOk then (none, s)
  else (some e.png, s)

/-- A camera lifecycle command together with its environment outcomes. -/
inductive CamCmd where
  | init (e : InitEnv)
  | stop
  | restart (e : InitEnv)
  | switch (e : InitEnv)

/-- Run one command, returning the final state and the trace of observed
states. -/
def runCmd (s : CameraState) : CamCmd → CameraState × List CameraState
  | .init e => initCamera s e
  | .stop => (stopCamera s, [stopCamera s])
  | .restart e => restartCamera s e
  | .switch e => switchCamera s e

/-- Run a sequence of commands, concatenating the observed traces. -/
def runCmds (s : CameraState) : List CamCmd → CameraState × List CameraState
  | [] => (s, [])
  | c :: cs =>
    let r1 := runCmd s c
    let r2 := runCmds r1.1 cs
    (r2.1, r1.2 ++ r2.2)

/-- Resource-binding invariant: the acquired-and-not-stopped streams are
exactly the one referenced by `mediaStream` (none when it is null). -/
def streamInv (s : CameraState) : Prop :=
  s.openStreams = s.mediaStream.toList

instance (s : CameraState) : Decidable (streamInv s) := by
  unfold streamInv; infer_instance

/-- At most one stream handle open at an observed instant. -/
def atMostOne (s : CameraState) : Prop :=
  s.openStreams.length ≤ 1

instance (s : CameraState) : Decidable (atMostOne s) := by
  unfold atMostOne; infer_instance

/-! ## Analysis dispatcher: prompt derivation and the Gemini composable -/

/-- The fixed per-category prompt table of `generateSinglePrompt`
(`analysisPrompts` record literal, key order preserved). -/
def analysisPrompts : List (String × String) :=
  [("General Analysis", "Analisis keseluruhan gambar secara detail. Berikan deskripsi lengkap tentang apa yang terlihat dalam gambar, termasuk objek, orang, latar belakang, dan konteks visual lainnya. Jawab dalam bahasa Indonesia."),
   ("Emotion Detection", "Analisis ekspresi wajah dan emosi orang-orang dalam gambar. Identifikasi emosi yang terlihat (senang, sedih, marah, netral, dll) dan tingkat kepercayaan deteksi. Jawab dalam bahasa Indonesia."),
   ("Fatigue Analysis", "Analisis tanda-tanda kelelahan pada wajah. Perhatikan indikator seperti mata mengantuk, lingkaran hitam, ekspresi lelah, dan tanda fisik lainnya yang menunjukkan kelelahan. Jawab dalam bahasa Indonesia."),
   ("Gender Presentation", "Analisis presentasi gender yang terlihat pada orang-orang dalam gambar. Deskripsikan karakteristik yang terlihat tanpa membuat asumsi definitif. Jawab dalam bahasa Indonesia."),
   ("Person Description", "Beri deskripsi detail karakteristik fisik orang-orang dalam gambar, termasuk usia perkiraan, tinggi badan, bentuk wajah, dan fitur fisik lainnya yang terlihat. Jawab dalam bahasa Indonesia."),
   ("Accessories", "Identifikasi dan deskripsikan aksesori atau item yang dikenakan oleh orang-orang dalam gambar, seperti kacamata, topi, perhiasan, jam tangan, tas, atau item lainnya. Jawab dalam bahasa Indonesia."),
   ("Gaze Analysis", "Analisis arah pandangan mata dan fokus perhatian. Tentukan ke mana orang-orang dalam gambar sedang melihat atau fokus. Jawab dalam bahasa Indonesia."),
   ("Hair Analysis", "Analisis karakteristik rambut orang-orang dalam gambar, termasuk warna rambut, panjang, gaya, tekstur, dan detail lainnya yang terlihat. Jawab dalam bahasa Indonesia."),
   ("Crowd Analysis", "Analisis dinamika kelompok dan pola demografis. Hitung jumlah orang, distribusi usia dan gender, interaksi antar orang, dan pola perilaku kelompok. Jawab dalam bahasa Indonesia.")]

/-- Fallback prompt of `generateSinglePrompt` for an unmapped category. -/
def fallbackPrompt : String :=
  "Analisis gambar ini secara detail. Jawab dalam bahasa Indonesia."

/-- `generateSinglePrompt`: look the category label up in the fixed table,
falling back to the generic prompt (`analysisPrompts[analysisType] || fallback`). -/
def generateSinglePrompt (analysisType : String) : String :=
  (analysisPrompts.lookup analysisType).getD fallbackPrompt

/-- Character-level `startsWith` (structural, so it computes by
reduction). -/
def strStartsWith (s p : String) : Bool :=
  p.data.isPrefixOf s.data

/-- Split a character list at the last occurrence of `sep`, returning the
parts before and after it — the split point the greedy first group of the
regex `(.+);base64,(.+)` selects. -/
def splitAtLastSep (sep : List Char) : List Char → Option (List Char × List Char)
  | [] => if sep.isEmpty then some ([], []) else none
  | x :: xs =>
    match splitAtLastSep sep xs with
    | some pp => some (x :: pp.1, pp.2)
    | none =>
      if sep.isPrefixOf (x :: xs) then some ([], (x :: xs).drop sep.length)
      else none

/-- JS `String.prototype.trim` on a character list. -/
def trimChars (cs : List Char) : List Char :=
  ((cs.dropWhile Char.isWhitespace).reverse.dropWhile Char.isWhitespace).reverse

/-- `dataUrlToBase64`: parse `^data:(.+);base64,(.+)$`.  The greedy first
group splits at the last occurrence of `";base64,"`; both groups must be
non-empty, and the trimmed mime type and the payload are checked again. -/
def dataUrlToBase64 (dataUrl : String) : Except String (String × String) :=
  if ¬ strStartsWith dataUrl "data:" then .error "Format data URL tidak valid"
  else
    match splitAtLastSep (";base64,".data) (dataUrl.data.drop 5) with
    | none => .error "Format data URL tidak valid"
    | some mp =>
      if mp.1.isEmpty ∨ mp.2.isEmpty then .error "Format data URL tidak valid"
      else
        let mimeType := trimChars mp.1
        if mimeType.isEmpty then
          .error "Format data URL tidak valid: mimeType atau data tidak ditemukan"
        else .ok (String.mk mimeType, String.mk mp.2)

/-- `getApiKey`: the explicit parameter wins when truthy, otherwise the
runtime-config key must be present and truthy, else a configuration error
is thrown. -/
def getApiKey (apiKeyParam envKey : Option String) : Except String String :=
  match apiKeyParam with
  | some k =>
    if k ≠ "" then .ok k
    else match envKey with
      | some e => if e ≠ "" then .ok e else .error "Gemini API key tidak ditemukan. Silakan set NUXT_PUBLIC_GEMINI_API_KEY di .env file atau berikan sebagai parameter."
      | none => .error "Gemini API key tidak ditemukan. Silakan set NUXT_PUBLIC_GEMINI_API_KEY di .env file atau berikan sebagai parameter."
  | none =>
    match envKey with
    | some e => if e ≠ "" then .ok e else .error "Gemini API key tidak ditemukan. Silakan set NUXT_PUBLIC_GEMINI_API_KEY di .env file atau berikan sebagai parameter."
    | none => .error "Gemini API key tidak ditemukan. Silakan set NUXT_PUBLIC_GEMINI_API_KEY di .env file atau berikan sebagai parameter."

/-- Reactive state of the `useGemini` composable. -/
structure GeminiState where
  isAnalyzing : Bool
  error : Option String
  lastResult : Option String
deriving DecidableEq, Repr

/-- How far the synchronous prefix of one `analyzeImage` call got: either
the service call was issued (`pending` with its prompt) or a validation /
configuration error was thrown and caught before any request
(`failedSync`, with `error` already recorded). -/
inductive StartOutcome where
  | pending (prompt : String)
  | failedSync
deriving DecidableEq, Repr

/-- Synchronous prefix of `analyzeImage`: set `isAnalyzing`, clear `error`,
validate the data URL, parse it, fetch the API key; each failure is caught
at once (recording `error`, running the `finally`), otherwise the service
request is issued and the call is pending settlement. -/
def geminiStart (g : GeminiState) (apiKeyParam envKey : Option String)
    (imageDataUrl prompt : String) : StartOutcome × GeminiState :=
  let g1 : GeminiState := { g with isAnalyzing := true, error := none }
  if ¬ strStartsWith imageDataUrl "data:image" then
    (.failedSync, { g1 with error := some "Data URL gambar tidak valid", isAnalyzing := false })
  else
    match dataUrlToBase64 imageDataUrl with
    | .error m => (.failedSync, { g1 with error := some m, isAnalyzing := false })
    | .ok _ =>
      match getApiKey apiKeyParam envKey with
      | .error m => (.failedSync, { g1 with error := some m, isAnalyzing := false })
      | .ok _ => (.pending prompt, g1)

/-- Settlement of one `analyzeImage` call: a pending service call resolves
to its text (stored in `lastResult`) or rejects with a message (stored in
`error`, returning `null`); a call that failed synchronously just delivers
`null`.  The `finally` clears `isAnalyzing`. -/
def geminiSettle (g : GeminiState) (svc : String → Except String String) :
    StartOutcome → Option String × GeminiState
  | .failedSync => (none, g)
  | .pending prompt =>
    match svc prompt with
    | .ok t => (some t, { g with lastResult := some t, isAnalyzing := false })
    | .error e => (none, { g with error := some e, isAnalyzing := false })

/-- `clearResult` of `useGemini`. -/
def clearResult (g : GeminiState) : GeminiState :=
  { g with lastResult := none, error := none }

/-! ## Batch dispatch (`CameraPreview.handleAnalyzeImage`) -/

/-- Events emitted by `CameraPreview` towards the page. -/
inductive BatchEvent where
  | progress (analysisType : String) (isProcessing : Bool)
  | result (analysisType : String) (text : String) (error : Option String)
  | analysisError (msg : String)
deriving DecidableEq, Repr

/-- Start phase of the batch: in selection order, emit the in-progress
signal, derive the category prompt and run the synchronous prefix of
`analyzeImage`; record each issued service request. -/
def batchStart (dataUrl : String) (envKey : Option String) :
    List String → GeminiState →
    List BatchEvent × List (String × StartOutcome) × List String × GeminiState
  | [], g => ([], [], [], g)
  | ty :: rest, g =>
    let prompt := generateSinglePrompt ty
    let r := geminiStart g none envKey dataUrl prompt
    let calls := match r.1 with
      | .pending p => [p]
      | .failedSync => []
    let rec' := batchStart dataUrl envKey rest r.2
    (BatchEvent.progress ty true :: rec'.1, (ty, r.1) :: rec'.2.1,
     calls ++ rec'.2.2.1, rec'.2.2.2)

/-- Continuation of one map callback after `await analyzeImage`: emit the
success result, or — when the call returned `null` and the shared error ref
holds a message — the failure result, then the finished-progress signal.
The surrounding `try/catch` is unreachable since `analyzeImage` traps every
exception itself, so no exception escapes a callback. -/
def settleOne (svc : String → Except String String) (g : GeminiState)
    (ty : String) (o : StartOutcome) : List BatchEvent × GeminiState :=
  let r := geminiSettle g svc o
  let evs := match r.1 with
    | some t => [BatchEvent.result ty t none]
    | none =>
      match r.2.error with
      | some e => [BatchEvent.result ty "" (some e)]
      | none => []
  (evs ++ [BatchEvent.progress ty false], r.2)

/-- Settle the started requests in an arbitrary order (the requests are
independent; `settleOrder` lists their indices in settlement order). -/
def batchSettle (svc : String → Except String String)
    (outs : List (String × StartOutcome)) :
    List Nat → GeminiState → List BatchEvent × GeminiState
  | [], g => ([], g)
  | i :: rest, g =>
    match outs.get? i with
    | none => batchSettle svc outs rest g
    | some p =>
      let r := settleOne svc g p.1 p.2
      let r2 := batchSettle svc outs rest r.2
      (r.1 ++ r2.1, r2.2)

/-- Observable outcome of one `handleAnalyzeImage` call. -/
structure BatchOut where
  events : List BatchEvent
  svcCalls : List String
  captureAttempted : Bool
  gemini : GeminiState
deriving DecidableEq, Repr

/-- `handleAnalyzeImage`: refuse silently unless the stream is ready and
not paused; refuse with one validation error when no category is selected;
capture one frame (one top-level error when that fails); otherwise fan the
per-category requests out and join them (`Promise.all`), the settlements
arriving in the order `settleOrder`. -/
def handleAnalyzeImage (s : CameraState) (capEnv : CaptureEnv)
    (selected : List String) (envKey : Option String)
    (svc : String → Except String String) (settleOrder : List Nat)
    (g : GeminiState) : BatchOut :=
  if ¬ s.isStreamReady ∨ s.isPaused then ⟨[], [], false, g⟩
  else if selected.isEmpty then
    ⟨[.analysisError "Silakan pilih minimal satu jenis analisa yang ingin dilakukan."],
     [], false, g⟩
  else
    match (captureScreenshot s capEnv).1 with
    | none => ⟨[.analysisError "Gagal mengambil gambar untuk dianalisis"], [], true, g⟩
    | some dataUrl =>
      let st := batchStart dataUrl envKey selected g
      let se := batchSettle svc st.2.1 settleOrder st.2.2.2
      ⟨st.1 ++ se.1, st.2.2.1, true, se.2⟩

/-! ## Page-level aggregation (`index.vue`) -/

/-- One per-category analysis result as emitted/stored by the page
(timestamps in milliseconds). -/
structure AnalysisItemResult where
  analysisType : String
  text : String
  timestamp : Int
  error : Option String
  isProcessing : Bool
deriving DecidableEq, Repr

/-- The matching predicate of `handleAnalysisResult.findIndex`: same
category label and timestamps strictly less than 1000 ms apart. -/
def resultMatches (r e : AnalysisItemResult) : Bool :=
  e.analysisType == r.analysisType && (e.timestamp - r.timestamp).natAbs < 1000

/-- Page state touched by `handleAnalysisResult`. -/
structure PageState where
  analysisResults : List AnalysisItemResult
  analysisError : Option String
deriving DecidableEq, Repr

/-- `handleAnalysisResult`: replace the first stored entry matching the
incoming result (same category, within the 1-second window), otherwise
append it; either way clear the top-level analysis error. -/
def handleAnalysisResult (st : PageState) (r : AnalysisItemResult) : PageState :=
  match st.analysisResults.findIdx? (fun e => resultMatches r e) with
  | some i => { st with analysisResults := st.analysisResults.set i r, analysisError := none }
  | none => { st with analysisResults := st.analysisResults ++ [r], analysisError := none }

/-! ## Selection grid (`AnalysisGrid.handleSelectionChange`) -/

/-- Order-preserving de-duplication keeping first occurrences, as
`Array.from(new Set(xs))` does. -/
def jsSetDedup : List String → List String
  | [] => []
  | x :: xs => x :: jsSetDedup (xs.filter (· ≠ x))
termination_by l => l.length
decreasing_by
  simp only [List.length_cons]
  exact Nat.lt_succ_of_le (xs.length_filter_le _)

/-- `handleSelectionChange`: selecting inserts the label through a set
(union, deduplicated), deselecting filters out every occurrence. -/
def handleSelectionChange (selected : List String) (label : String) (checked : Bool) :
    List String :=
  if checked then jsSetDedup (selected ++ [label])
  else selected.filter (fun item => item ≠ label)

/-- A sequence of checkbox interactions applied to the selection list. -/
def runSelections (init : List String) (ops : List (String × Bool)) : List String :=
  ops.foldl (fun acc op => handleSelectionChange acc op.1 op.2) init

/-! ## Helper lemmas -/

theorem cleanupStream_fields (s : CameraState) :
    (cleanupStream s).cameraError = s.cameraError ∧
    (cleanupStream s).isStreamReady = s.isStreamReady ∧
    (cleanupStream s).isInitializing = s.isInitializing ∧
    (cleanupStream s).isPaused = s.isPaused ∧
    (cleanupStream s).mediaStream = none := by
  unfold cleanupStream
  cases h : s.mediaStream <;> simp [h] <;> split <;> simp [h]

theorem streamInv_atMostOne (s : CameraState) (h : streamInv s) : atMostOne s := by
  unfold streamInv at h
  unfold atMostOne
  rw [h]
  cases s.mediaStream <;> simp [Option.toList]

theorem cleanupStream_openStreams (s : CameraState) (h : streamInv s) :
    (cleanupStream s).openStreams = [] := by
  unfold streamInv at h
  unfold cleanupStream
  cases hm : s.mediaStream <;> rw [hm] at h <;> simp [hm, h] <;> split <;> simp [h]

theorem cleanupStream_inv (s : CameraState) (h : streamInv s) :
    streamInv (cleanupStream s) := by
  unfold streamInv
  rw [cleanupStream_openStreams s h, (cleanupStream_fields s).2.2.2.2]
  rfl

/-! ## Claim theorems -/

/-- C9: `stopCamera` releases the stream and clears the
initializing/ready/paused flags but leaves `cameraError` untouched in every
session state, so an error recorded before the stop is still visible after
it. -/
theorem stopCamera_preserves_cameraError (s : CameraState) :
    (stopCamera s).cameraError = s.cameraError ∧
    (stopCamera s).isInitializing = false ∧
    (stopCamera s).isStreamReady = false ∧
    (stopCamera s).isPaused = false ∧
    (stopCamera s).mediaStream = none := by
  unfold stopCamera
  have h := cleanupStream_fields
    { s with isInitializing := false, isStreamReady := false, isPaused := false }
  exact ⟨h.1, h.2.2.1, h.2.1, h.2.2.2.1, h.2.2.2.2⟩

/-- C7: while the session is already initializing or already holds a
stream, `initCamera` is a complete no-op: the state (stream handle, error,
readiness, pause and facing-mode fields, and the `getUserMedia` request
count) is returned unchanged and the trace observes nothing but the
unchanged state. -/
theorem initCamera_noop (s : CameraState) (e : InitEnv)
    (h : s.isInitializing = true ∨ s.mediaStream.isSome = true) :
    initCamera s e = (s, [s]) := by
  unfold initCamera
  rcases h with h | h <;> simp [h]

/-- Witness for `initCamera_noop`: a session currently holding stream 0. -/
theorem initCamera_noop_witness :
    initCamera
      { videoRef := true, srcObject := some 0, cameraError := none, isStreamReady := true,
        isInitializing := false, isPaused := false, videoPlaying := true,
        currentFacingMode := .user, availableDevices := [0], mediaStream := some 0,
        openStreams := [0], nextStreamId := 1, gumCalls := 1 }
      { cameraSupported := true, gum := .ok (), metadataFires := true, play := .ok (),
        enumOk := true, devices := [0] } =
    ({ videoRef := true, srcObject := some 0, cameraError := none, isStreamReady := true,
       isInitializing := false, isPaused := false, videoPlaying := true,
       currentFacingMode := .user, availableDevices := [0], mediaStream := some 0,
       openStreams := [0], nextStreamId := 1, gumCalls := 1 },
     [{ videoRef := true, srcObject := some 0, cameraError := none, isStreamReady := true,
        isInitializing := false, isPaused := false, videoPlaying := true,
        currentFacingMode := .user, availableDevices := [0], mediaStream := some 0,
        openStreams := [0], nextStreamId := 1, gumCalls := 1 }]) :=
  initCamera_noop _ _ (Or.inr (by decide))

/-- C6: from a ready session (video mounted, stream ready and playing, not
paused), `pauseCamera` followed by `resumeCamera` with a successful play
returns the exact same state: ready again, same `mediaStream` handle, no
release (`openStreams` unchanged) and no re-acquisition (`gumCalls`
unchanged). -/
theorem pause_resume_roundtrip (s : CameraState) (e : ResumeEnv)
    (hv : s.videoRef = true) (hr : s.isStreamReady = true)
    (hp : s.isPaused = false) (hpl : s.videoPlaying = true)
    (he : e.play = .ok ()) :
    resumeCamera (pauseCamera s) e = s := by
  unfold pauseCamera resumeCamera
  simp only [hv, hr, and_self, if_pos, he]
  cases s
  simp_all

/-- Witness for `pause_resume_roundtrip`: a concrete ready session. -/
theorem pause_resume_roundtrip_witness :
    resumeCamera
      (pauseCamera
        { videoRef := true, srcObject := some 0, cameraError := none, isStreamReady := true,
          isInitializing := false, isPaused := false, videoPlaying := true,
          currentFacingMode := .user, availableDevices := [0], mediaStream := some 0,
          openStreams := [0], nextStreamId := 1, gumCalls := 1 })
      { play := .ok () } =
    { videoRef := true, srcObject := some 0, cameraError := none, isStreamReady := true,
      isInitializing := false, isPaused := false, videoPlaying := true,
      currentFacingMode := .user, availableDevices := [0], mediaStream := some 0,
      openStreams := [0], nextStreamId := 1, gumCalls := 1 } :=
  pause_resume_roundtrip _ _ rfl rfl rfl rfl rfl

/-- C5: prompt derivation is a pure function of the category label — equal
labels give equal prompts, every label of the fixed table yields its mapped
instruction, and every label outside the table yields the fallback
prompt. -/
theorem generateSinglePrompt_spec :
    (∀ ty₁ ty₂ : String, ty₁ = ty₂ → generateSinglePrompt ty₁ = generateSinglePrompt ty₂) ∧
    (∀ p ∈ analysisPrompts, generateSinglePrompt p.1 = p.2) ∧
    (∀ ty : String, ty ∉ analysisPrompts.map Prod.fst →
      generateSinglePrompt ty = fallbackPrompt) := by
  refine ⟨fun ty₁ ty₂ h => by rw [h], by decide, fun ty h => ?_⟩
  have hnone : analysisPrompts.lookup ty = none := by
    rw [List.lookup_eq_none_iff]
    intro p hp
    have hmem : p.1 ∈ analysisPrompts.map Prod.fst := List.mem_map_of_mem Prod.fst hp
    simp only [bne_iff_ne, ne_eq]
    intro hEq
    exact h (hEq ▸ hmem)
  simp [generateSinglePrompt, hnone]

/-- Witness for `generateSinglePrompt_spec`: one mapped label and one
unmapped label. -/
theorem generateSinglePrompt_spec_witness :
    generateSinglePrompt "Accessories" =
      "Identifikasi dan deskripsikan aksesori atau item yang dikenakan oleh orang-orang dalam gambar, seperti kacamata, topi, perhiasan, jam tangan, tas, atau item lainnya. Jawab dalam bahasa Indonesia." ∧
    generateSinglePrompt "Unknown Category" = fallbackPrompt :=
  ⟨generateSinglePrompt_spec.2.1
     ("Accessories",
      "Identifikasi dan deskripsikan aksesori atau item yang dikenakan oleh orang-orang dalam gambar, seperti kacamata, topi, perhiasan, jam tangan, tas, atau item lainnya. Jawab dalam bahasa Indonesia.")
     (by decide),
   generateSinglePrompt_spec.2.2 "Unknown Category" (by decide)⟩

/-- A concrete paused session: the stream was acquired and is still ready,
playback is paused. -/
def pausedCam : CameraState :=
  { videoRef := true, srcObject := some 0, cameraError := none, isStreamReady := true,
    isInitializing := false, isPaused := true, videoPlaying := false,
    currentFacingMode := .user, availableDevices := [0], mediaStream := some 0,
    openStreams := [0], nextStreamId := 1, gumCalls := 1 }

/-- A concrete idle session: nothing acquired yet. -/
def idleCam : CameraState :=
  { videoRef := true, srcObject := none, cameraError := none, isStreamReady := false,
    isInitializing := false, isPaused := false, videoPlaying := false,
    currentFacingMode := .user, availableDevices := [], mediaStream := none,
    openStreams := [], nextStreamId := 0, gumCalls := 0 }

/-- A concrete ready session: stream acquired, playing, not paused. -/
def readyCam : CameraState :=
  { videoRef := true, srcObject := some 0, cameraError := none, isStreamReady := true,
    isInitializing := false, isPaused := false, videoPlaying := true,
    currentFacingMode := .user, availableDevices := [0], mediaStream := some 0,
    openStreams := [0], nextStreamId := 1, gumCalls := 1 }

/-- A benign capture environment: context available, drawing succeeds. -/
def okCapture : CaptureEnv :=
  { ctxOk := true, drawOk := true, png := "data:image/png;base64,AAAA" }

/-- Counterexample to C4: in the paused state the stream is still ready
(`pauseCamera` leaves `isStreamReady` true and `captureScreenshot` checks
only `videoRef` and `isStreamReady`), so capturing while paused returns a
frame rather than `null`. -/
theorem captureScreenshot_paused_returns_frame :
    pausedCam.isPaused = true ∧ pausedCam.isStreamReady = true ∧
    (captureScreenshot pausedCam okCapture).1 = some "data:image/png;base64,AAAA" := by
  decide

/-- C4 (amended): `captureScreenshot` returns `null` whenever the video
element is absent or the stream is not ready — in particular in the idle
state — and it never mutates session state (in every state, paused
included). -/
theorem captureScreenshot_not_ready (s : CameraState) (e : CaptureEnv) :
    ((s.videoRef = false ∨ s.isStreamReady = false) →
      (captureScreenshot s e).1 = none) ∧
    (captureScreenshot s e).2 = s := by
  constructor
  · intro h
    unfold captureScreenshot
    rcases h with h | h <;> simp [h]
  · unfold captureScreenshot
    split
    · rfl
    · split
      · rfl
      · split <;> rfl

/-- Witness for `captureScreenshot_not_ready`: the idle session yields no
frame and is unchanged. -/
theorem captureScreenshot_not_ready_witness :
    (captureScreenshot idleCam okCapture).1 = none ∧
    (captureScreenshot idleCam okCapture).2 = idleCam :=
  ⟨(captureScreenshot_not_ready idleCam okCapture).1 (Or.inr (by decide)),
   (captureScreenshot_not_ready idleCam okCapture).2⟩

/-- C3: a dispatch attempt (camera ready, not paused) with zero selected
categories emits exactly the single validation error, attempts no frame
capture and issues no analysis-service request. -/
theorem handleAnalyzeImage_no_categories (s : CameraState) (capEnv : CaptureEnv)
    (envKey : Option String) (svc : String → Except String String)
    (settleOrder : List Nat) (g : GeminiState)
    (hr : s.isStreamReady = true) (hp : s.isPaused = false) :
    handleAnalyzeImage s capEnv [] envKey svc settleOrder g =
      ⟨[.analysisError "Silakan pilih minimal satu jenis analisa yang ingin dilakukan."],
       [], false, g⟩ := by
  unfold handleAnalyzeImage
  simp [hr, hp]

/-- Witness for `handleAnalyzeImage_no_categories`: a ready camera and an
empty selection. -/
theorem handleAnalyzeImage_no_categories_witness :
    handleAnalyzeImage readyCam okCapture [] (some "key")
      (fun _ => .ok "text") [] { isAnalyzing := false, error := none, lastResult := none } =
      ⟨[.analysisError "Silakan pilih minimal satu jenis analisa yang ingin dilakukan."],
       [], false, { isAnalyzing := false, error := none, lastResult := none }⟩ :=
  handleAnalyzeImage_no_categories readyCam okCapture (some "key")
    (fun _ => .ok "text") [] _ rfl rfl

theorem mem_jsSetDedup (l : List String) (a : String) : a ∈ jsSetDedup l ↔ a ∈ l := by
  induction l using jsSetDedup.induct with
  | case1 => simp [jsSetDedup]
  | case2 x xs ih =>
    simp only [jsSetDedup, List.mem_cons, ih, List.mem_filter, decide_eq_true_eq]
    by_cases hax : a = x <;> simp [hax]

theorem jsSetDedup_nodup (l : List String) : (jsSetDedup l).Nodup := by
  induction l using jsSetDedup.induct with
  | case1 => simp [jsSetDedup]
  | case2 x xs ih =>
    simp only [jsSetDedup, List.nodup_cons]
    refine ⟨?_, ih⟩
    rw [mem_jsSetDedup]
    simp [List.mem_filter]

theorem handleSelectionChange_nodup (sel : List String) (label : String) (c : Bool)
    (h : sel.Nodup) : (handleSelectionChange sel label c).Nodup := by
  unfold handleSelectionChange
  split
  · exact jsSetDedup_nodup _
  · exact h.filter _

/-- C10: from a duplicate-free selection, any sequence of
`handleSelectionChange` calls keeps the selection duplicate-free;
moreover deselecting a label removes every occurrence of it, and after
selecting a label it occurs exactly once. -/
theorem selection_no_duplicates (init : List String) (ops : List (String × Bool))
    (h : init.Nodup) :
    (runSelections init ops).Nodup ∧
    (∀ sel label, label ∉ handleSelectionChange sel label false) ∧
    (∀ sel label, (handleSelectionChange sel label true).count label = 1) := by
  refine ⟨?_, ?_, ?_⟩
  · induction ops generalizing init with
    | nil => simpa [runSelections] using h
    | cons op rest ih =>
      have h1 : (handleSelectionChange init op.1 op.2).Nodup :=
        handleSelectionChange_nodup init op.1 op.2 h
      simpa [runSelections] using ih _ h1
  · intro sel label
    simp [handleSelectionChange, List.mem_filter]
  · intro sel label
    have hmem : label ∈ handleSelectionChange sel label true := by
      simp [handleSelectionChange, mem_jsSetDedup]
    have hnodup : (handleSelectionChange sel label true).Nodup := by
      simp only [handleSelectionChange, if_pos]
      exact jsSetDedup_nodup _
    exact List.count_eq_one_of_mem hnodup hmem

/-- Witness for `selection_no_duplicates`: double-selecting and then
deselecting concrete labels. -/
theorem selection_no_duplicates_witness :
    (runSelections []
      [("Emotion Detection", true), ("Emotion Detection", true),
       ("Accessories", true), ("Emotion Detection", false)]).Nodup :=
  (selection_no_duplicates []
    [("Emotion Detection", true), ("Emotion Detection", true),
     ("Accessories", true), ("Emotion Detection", false)] (by decide)).1

/-- C8: `handleAnalysisResult` replaces a stored entry exactly when some
stored entry has the same category label and a timestamp strictly less
than 1000 ms away; otherwise the incoming result is appended; in both
cases the top-level analysis error is cleared. -/
theorem handleAnalysisResult_spec (st : PageState) (r : AnalysisItemResult) :
    (handleAnalysisResult st r).analysisError = none ∧
    ((∃ e ∈ st.analysisResults, resultMatches r e = true) →
      ∃ i, ∃ hi : i < st.analysisResults.length,
        resultMatches r (st.analysisResults.get ⟨i, hi⟩) = true ∧
        (handleAnalysisResult st r).analysisResults = st.analysisResults.set i r) ∧
    ((∀ e ∈ st.analysisResults, resultMatches r e = false) →
      (handleAnalysisResult st r).analysisResults = st.analysisResults ++ [r]) := by
  unfold handleAnalysisResult
  cases hf : st.analysisResults.findIdx? (fun e => resultMatches r e) with
  | none =>
    simp only [hf]
    refine ⟨by trivial, ?_, fun _ => by trivial⟩
    rintro ⟨e, he, hm⟩
    rw [List.findIdx?_eq_none_iff] at hf
    have := hf e he
    simp [hm] at this
  | some i =>
    have hf' := hf
    rw [List.findIdx?_eq_some_iff_getElem] at hf'
    obtain ⟨hi, hpi, _⟩ := hf'
    simp only [hf]
    refine ⟨by trivial, fun _ => ⟨i, hi, ?_, by trivial⟩, ?_⟩
    · simpa using hpi
    · intro hall
      have hmem := List.getElem_mem hi
      have := hall _ hmem
      simp [this] at hpi

/-- Witness for `handleAnalysisResult_spec`: a fresh result with no stored
entry to match is appended and the error is cleared. -/
theorem handleAnalysisResult_spec_witness :
    (handleAnalysisResult
      { analysisResults :=
          [{ analysisType := "Accessories", text := "", timestamp := 0,
             error := none, isProcessing := true }],
        analysisError := some "old error" }
      { analysisType := "Emotion Detection", text := "happy", timestamp := 500,
        error := none, isProcessing := false }).analysisError = none ∧
    (handleAnalysisResult
      { analysisResults :=
          [{ analysisType := "Accessories", text := "", timestamp := 0,
             error := none, isProcessing := true }],
        analysisError := some "old error" }
      { analysisType := "Emotion Detection", text := "happy", timestamp := 500,
        error := none, isProcessing := false }).analysisResults =
      [{ analysisType := "Accessories", text := "", timestamp := 0,
         error := none, isProcessing := true },
       { analysisType := "Emotion Detection", text := "happy", timestamp := 500,
         error := none, isProcessing := false }] :=
  ⟨(handleAnalysisResult_spec _ _).1, (handleAnalysisResult_spec _ _).2.2 (by decide)⟩

/-- Fresh state of the `useGemini` composable. -/
def geminiInit : GeminiState :=
  { isAnalyzing := false, error := none, lastResult := none }

/-- The stubbed analysis service of the two-category scenario: succeeds
with "happy, relaxed" on the Accessories prompt, rejects every other
prompt with the message `msg`. -/
def svcStub (msg : String) : String → Except String String :=
  fun prompt =>
    if prompt = generateSinglePrompt "Accessories" then .ok "happy, relaxed"
    else .error msg

/-- C2: batch over ⟨Emotion Detection, Accessories⟩ where the service
fails for the Emotion Detection prompt with a non-empty message and
succeeds for the Accessories prompt with "happy, relaxed": whichever order
the two requests settle in, Emotion Detection's emitted result carries the
error message, Accessories' emitted result carries the text, and the batch
is a total function — no exception propagates out of it (every service
rejection is absorbed into a per-category result). -/
theorem batch_two_categories_isolated (msg : String) (hmsg : msg ≠ "") :
    (handleAnalyzeImage readyCam okCapture ["Emotion Detection", "Accessories"]
        (some "key") (svcStub msg) [0, 1] geminiInit).events =
      [.progress "Emotion Detection" true, .progress "Accessories" true,
       .result "Emotion Detection" "" (some msg), .progress "Emotion Detection" false,
       .result "Accessories" "happy, relaxed" none, .progress "Accessories" false] ∧
    (handleAnalyzeImage readyCam okCapture ["Emotion Detection", "Accessories"]
        (some "key") (svcStub msg) [1, 0] geminiInit).events =
      [.progress "Emotion Detection" true, .progress "Accessories" true,
       .result "Accessories" "happy, relaxed" none, .progress "Accessories" false,
       .result "Emotion Detection" "" (some msg), .progress "Emotion Detection" false] ∧
    msg ≠ "" :=
  ⟨rfl, rfl, hmsg⟩

/-- Witness for `batch_two_categories_isolated`: the stub rejecting with a
concrete network-error message. -/
theorem batch_two_categories_isolated_witness :
    (handleAnalyzeImage readyCam okCapture ["Emotion Detection", "Accessories"]
        (some "key") (svcStub "network error") [0, 1] geminiInit).events =
      [.progress "Emotion Detection" true, .progress "Accessories" true,
       .result "Emotion Detection" "" (some "network error"),
       .progress "Emotion Detection" false,
       .result "Accessories" "happy, relaxed" none, .progress "Accessories" false] ∧
    (handleAnalyzeImage readyCam okCapture ["Emotion Detection", "Accessories"]
        (some "key") (svcStub "network error") [1, 0] geminiInit).events =
      [.progress "Emotion Detection" true, .progress "Accessories" true,
       .result "Accessories" "happy, relaxed" none, .progress "Accessories" false,
       .result "Emotion Detection" "" (some "network error"),
       .progress "Emotion Detection" false] ∧
    ("network error" : String) ≠ "" :=
  batch_two_categories_isolated "network error" (by decide)

/-! ## The at-most-one-stream invariant (C1) -/

theorem getAvailableDevices_inv (s : CameraState) (e : InitEnv) (h : streamInv s) :
    streamInv (getAvailableDevices s e) := by
  unfold getAvailableDevices
  split <;> simpa [streamInv] using h

theorem stopCamera_inv (s : CameraState) (h : streamInv s) :
    streamInv (stopCamera s) ∧ atMostOne (stopCamera s) := by
  have h2 : streamInv
      { s with isInitializing := false, isStreamReady := false, isPaused := false } := by
    simpa [streamInv] using h
  have h3 := cleanupStream_inv _ h2
  exact ⟨h3, streamInv_atMostOne _ h3⟩

theorem initCamera_inv (s : CameraState) (e : InitEnv) (h : streamInv s) :
    streamInv (initCamera s e).1 ∧ ∀ t ∈ (initCamera s e).2, atMostOne t := by
  have hmo := streamInv_atMostOne s h
  unfold initCamera
  by_cases h1 : s.isInitializing = true ∨ s.mediaStream.isSome = true
  · rw [if_pos h1]
    exact ⟨h, by simpa using hmo⟩
  · rw [if_neg h1]
    have hms : s.mediaStream = none := by
      cases hmsx : s.mediaStream with
      | none => rfl
      | some v => exact absurd (Or.inr (by simp [hmsx])) h1
    have hos : s.openStreams = [] := by simpa [streamInv, hms] using h
    by_cases hv : ¬ s.videoRef = true
    · rw [if_pos hv]
      exact ⟨h, by simpa using hmo⟩
    · rw [if_neg hv]
      have hvt : s.videoRef = true := by simpa using hv
      by_cases heo : e.enumOk = true <;>
        by_cases hcs : e.cameraSupported = true <;>
          rcases hgum : e.gum with gm | gu <;>
            by_cases hmf : e.metadataFires = true <;>
              rcases hplay : e.play with pm | pu <;>
                simp [heo, hcs, hgum, hmf, hplay, initFail, cleanupStream,
                      getAvailableDevices, streamInv, atMostOne, Option.toList,
                      List.forall_mem_cons, hms, hos, hvt]

theorem restartCamera_inv (s : CameraState) (e : InitEnv) (h : streamInv s) :
    streamInv (restartCamera s e).1 ∧ ∀ t ∈ (restartCamera s e).2, atMostOne t := by
  have hs := stopCamera_inv s h
  have hi := initCamera_inv (stopCamera s) e hs.1
  unfold restartCamera
  refine ⟨hi.1, ?_⟩
  intro t ht
  simp only [List.mem_cons] at ht
  rcases ht with rfl | ht
  · exact hs.2
  · exact hi.2 t ht

theorem switchCamera_inv (s : CameraState) (e : InitEnv) (h : streamInv s) :
    streamInv (switchCamera s e).1 ∧ ∀ t ∈ (switchCamera s e).2, atMostOne t := by
  unfold switchCamera
  have h1 : streamInv (if s.availableDevices.isEmpty then getAvailableDevices s e else s) := by
    split
    · exact getAvailableDevices_inv s e h
    · exact h
  have h2 : streamInv
      { (if s.availableDevices.isEmpty then getAvailableDevices s e else s) with
        currentFacingMode :=
          (if s.availableDevices.isEmpty then getAvailableDevices s e
           else s).currentFacingMode.toggle } := by
    simpa [streamInv] using h1
  exact restartCamera_inv _ e h2

theorem runCmd_inv (s : CameraState) (c : CamCmd) (h : streamInv s) :
    streamInv (runCmd s c).1 ∧ ∀ t ∈ (runCmd s c).2, atMostOne t := by
  cases c with
  | init e => exact initCamera_inv s e h
  | stop =>
    have hs := stopCamera_inv s h
    exact ⟨hs.1, by simpa [runCmd] using hs.2⟩
  | restart e => exact restartCamera_inv s e h
  | switch e => exact switchCamera_inv s e h

/-- C1: starting from any session whose open streams are exactly the one
referenced by `mediaStream` (e.g. the idle session), every sequence of
`initCamera` / `stopCamera` / `switchCamera` / `restartCamera` calls keeps
that binding invariant, and at every observed instant of the execution
trace at most one stream handle is open: `initCamera` refuses to acquire
while a stream is held or an initialisation is in progress, and every
re-acquisition path releases the held stream via `cleanupStream` before
acquiring. -/
theorem camera_at_most_one_stream (s : CameraState) (cmds : List CamCmd)
    (h : streamInv s) :
    streamInv (runCmds s cmds).1 ∧ ∀ t ∈ (runCmds s cmds).2, atMostOne t := by
  induction cmds generalizing s with
  | nil => exact ⟨h, by simp [runCmds]⟩
  | cons c cs ih =>
    have hc := runCmd_inv s c h
    have hrest := ih (runCmd s c).1 hc.1
    refine ⟨by simpa [runCmds] using hrest.1, ?_⟩
    intro t ht
    simp only [runCmds, List.mem_append] at ht
    rcases ht with ht | ht
    · exact hc.2 t ht
    · exact hrest.2 t ht

/-- A benign camera environment: every external step succeeds. -/
def benignEnv : InitEnv :=
  { cameraSupported := true, gum := .ok (), metadataFires := true,
    play := .ok (), enumOk := true, devices := [0, 1] }

/-- Witness for `camera_at_most_one_stream`: from the idle session, a
stop, an acquisition, a restart and a facing switch, under a benign
environment; the stopped session is one of the observed instants. -/
theorem camera_at_most_one_stream_witness :
    streamInv (runCmds idleCam [.stop, .init benignEnv, .restart benignEnv,
      .switch benignEnv]).1 ∧
    atMostOne (stopCamera idleCam) :=
  ⟨(camera_at_most_one_stream idleCam
      [.stop, .init benignEnv, .restart benignEnv, .switch benignEnv] (by decide)).1,
   (camera_at_most_one_stream idleCam
      [.stop, .init benignEnv, .restart benignEnv, .switch benignEnv] (by decide)).2
     (stopCamera idleCam) (by decide)⟩

end CameraApp
